import Mathlib

/-!
Verification of the consultation-booking lifecycle engine and the
subscription message-quota subsystem of the onlyforu backend.

The definitions below are a shallow embedding of the Python handlers in
src/app/api/v1/bookings.py, follow_ups.py, messages.py and payments.py
over the SQLAlchemy models of src/app/db/models.py.  Each handler becomes
a pure function from a database snapshot to either an HTTP error (the
raise sites of the handler, with their status codes and detail strings)
or an updated snapshot (the state at commit).  External collaborators
(blob store uploads, the payment gateway signature check) are passed in
as oracle arguments, mirroring the fact that the handlers only branch on
their results.
-/

namespace OnlyForU

/-- A datetime value: an absolute instant (seconds) plus the aware flag.
Naive datetimes produced by datetime.utcnow() store the UTC wall clock,
so the instant field is the same UTC instant in both cases; the flag
records whether tzinfo is set, which is what the sla comparison in
submit_creator_response normalizes before comparing. -/
structure Timestamp where
  instant : Int
  aware : Bool
deriving DecidableEq, Repr

/-- datetime.replace with tzinfo=timezone.utc applied to a naive value;
identity on aware values (mirrors the normalization in bookings.py lines
522 to 525). -/
def replaceTzUtc (t : Timestamp) : Timestamp :=
  if t.aware then t else { t with aware := true }

/-- BookingStatus enum of models.py. -/
inductive BookingStatus where
  | pending_question
  | awaiting_response
  | completed
  | cancelled
deriving DecidableEq, Repr

/-- The .value string of the BookingStatus enum member. -/
def BookingStatus.value : BookingStatus → String
  | .pending_question => "pending_question"
  | .awaiting_response => "awaiting_response"
  | .completed => "completed"
  | .cancelled => "cancelled"

/-- SubscriptionStatus enum of models.py. -/
inductive SubscriptionStatus where
  | active
  | paused
  | cancelled
  | expired
deriving DecidableEq, Repr

/-- MessageStatus enum of models.py. -/
inductive MessageStatus where
  | pending
  | replied
  | archived
deriving DecidableEq, Repr

/-- An HTTPException raised by a handler: status code plus detail string.
Detail strings follow the source with quote characters dropped. -/
structure HTTPError where
  code : Nat
  detail : String
deriving DecidableEq, Repr

/-- Character-list version of the Python str.startswith test. -/
def charsStartWith : List Char → List Char → Bool
  | _, [] => true
  | [], _ :: _ => false
  | c :: cs, d :: ds => c == d && charsStartWith cs ds

/-- Python str.startswith, used by the handlers to check an uploaded
content type against the declared payload type. -/
def startswith (s pre : String) : Bool := charsStartWith s.data pre.data

/-- An UploadFile as far as the handlers inspect it: its content type. -/
structure MediaFile where
  content_type : String
deriving DecidableEq, Repr

/-- The bookings table row (models.py, class Booking), restricted to the
columns the verified handlers read or write. -/
structure Booking where
  id : Nat
  fan_id : Nat
  creator_id : Nat
  service_id : Option Nat
  service_title : Option String
  service_subtitle : Option String
  question_type : Option String
  question_text : Option String
  question_audio_url : Option String
  question_video_url : Option String
  question_submitted_at : Option Timestamp
  response_media_url : Option String
  response_type : Option String
  response_submitted_at : Option Timestamp
  status : BookingStatus
  payment_status : Option String
  razorpay_order_id : Option String
  razorpay_payment_id : Option String
  razorpay_signature : Option String
  amount_paid : Int
  expected_response_by : Option Timestamp
  sla_met : Option Bool
  follow_ups_remaining : Int
  fan_rating : Option Nat
  fan_review : Option String
  created_at : Timestamp
deriving DecidableEq, Repr

/-- The follow_up_messages table row (models.py, class FollowUpMessage). -/
structure FollowUpMessage where
  booking_id : Nat
  sender_type : String
  message_type : String
  text_content : Option String
  audio_url : Option String
  video_url : Option String
deriving DecidableEq, Repr

/-- The creator_profiles table row, restricted to the columns used. -/
structure CreatorProfile where
  id : Nat
  user_id : Nat
deriving DecidableEq, Repr

/-- The subscription_tiers table row, restricted to the limit column. -/
structure SubscriptionTier where
  max_messages_per_month : Nat
deriving DecidableEq, Repr

/-- The subscriptions table row.  The tier relationship is embedded, and
creator_user_id denormalizes the tier.club.creator.user_id relationship
chain that send_message traverses to address the receiver. -/
structure Subscription where
  id : Nat
  fan_id : Nat
  status : SubscriptionStatus
  messages_sent_this_period : Nat
  tier : SubscriptionTier
  creator_user_id : Nat
deriving DecidableEq, Repr

/-- The messages table row (direct-messaging channel). -/
structure Message where
  subscription_id : Nat
  sender_id : Nat
  receiver_id : Nat
  message_type : String
  content : Option String
  media_url : Option String
  media_duration_secs : Option Nat
  status : MessageStatus
  is_fan_message : Bool
  replied_at : Option Timestamp
deriving DecidableEq, Repr

/-- BookingCreate request schema (schemas, class BookingCreate). -/
structure BookingCreate where
  service_id : Option Nat
  creator_id : Nat
  service_title : String
  service_subtitle : Option String
  amount_paid : Int
deriving DecidableEq, Repr

/-- MessageCreate request schema (schemas, class MessageCreate). -/
structure MessageCreate where
  subscription_id : Nat
  message_type : String
  content : Option String
  media_url : Option String
  media_duration_secs : Option Nat
deriving DecidableEq, Repr

/-- The persistent record store: one list per table the handlers touch. -/
structure DB where
  bookings : List Booking
  follow_ups : List FollowUpMessage
  profiles : List CreatorProfile
  subscriptions : List Subscription
  messages : List Message
deriving DecidableEq, Repr

/-- select Booking where id = booking_id and fan_id = current_user,
scalar_one_or_none (the lookup shared by submit_question, submit_rating
and submit_follow_up). -/
def findBookingFan (db : DB) (booking_id current_user : Nat) : Option Booking :=
  db.bookings.find? (fun b => b.id == booking_id && b.fan_id == current_user)

/-- select Booking where id = booking_id and creator_id = profile id
(submit_creator_response). -/
def findBookingCreator (db : DB) (booking_id creator_id : Nat) : Option Booking :=
  db.bookings.find? (fun b => b.id == booking_id && b.creator_id == creator_id)

/-- select Booking where razorpay_order_id = order_id (verify_payment). -/
def findBookingOrder (db : DB) (order_id : String) : Option Booking :=
  db.bookings.find? (fun b => b.razorpay_order_id == some order_id)

/-- select CreatorProfile where user_id = current_user. -/
def findProfileUser (db : DB) (user : Nat) : Option CreatorProfile :=
  db.profiles.find? (fun p => p.user_id == user)

/-- select Subscription where id = subscription_id and fan_id =
current_user (send_message). -/
def findSubscriptionFan (db : DB) (subscription_id current_user : Nat) :
    Option Subscription :=
  db.subscriptions.find? (fun s => s.id == subscription_id && s.fan_id == current_user)

/-- Commit of an ORM in-place mutation of one booking row: the row with
the same id is replaced. -/
def updateBooking (bs : List Booking) (b : Booking) : List Booking :=
  bs.map (fun x => if x.id == b.id then b else x)

/-- Commit of an ORM in-place mutation of one subscription row. -/
def updateSubscription (ss : List Subscription) (s : Subscription) : List Subscription :=
  ss.map (fun x => if x.id == s.id then s else x)

/-- The fixed SLA offset of create_booking (bookings.py line 41). -/
def sla_hours : Int := 48

/-- The Booking row constructed by create_booking (bookings.py lines 40
to 55): status pending_question, expected_response_by at now plus the
48-hour offset (naive, from datetime.utcnow), follow-up budget 1. -/
def createRecord (new_id : Nat) (now : Int) (current_user : Nat)
    (booking_data : BookingCreate) : Booking :=
  let expected_response_by : Timestamp := { instant := now + sla_hours * 3600, aware := false }
  { id := new_id
    fan_id := current_user
    creator_id := booking_data.creator_id
    service_id := booking_data.service_id
    service_title := some booking_data.service_title
    service_subtitle := booking_data.service_subtitle
    question_type := none
    question_text := none
    question_audio_url := none
    question_video_url := none
    question_submitted_at := none
    response_media_url := none
    response_type := none
    response_submitted_at := none
    status := BookingStatus.pending_question
    payment_status := none
    razorpay_order_id := none
    razorpay_payment_id := none
    razorpay_signature := none
    amount_paid := booking_data.amount_paid
    expected_response_by := some expected_response_by
    sla_met := none
    follow_ups_remaining := 1
    fan_rating := none
    fan_review := none
    created_at := { instant := now, aware := true } }

/-- POST /bookings (bookings.py, create_booking).  new_id stands for the
uuid4 default of the id column; now is the current UTC instant read by
datetime.utcnow(). -/
def create_booking (db : DB) (new_id : Nat) (now : Int) (current_user : Nat)
    (booking_data : BookingCreate) : Except HTTPError DB :=
  .ok { db with bookings := db.bookings ++ [createRecord new_id now current_user booking_data] }

/-- The per-type payload validation and media upload of submit_question
(bookings.py lines 120 to 190).  Returns the pair
(audio_url, video_url); the upload oracle is the outcome of the azure
storage call (ok url, or error with the exception text). -/
def questionPayload (question_type : String) (question_text : Option String)
    (media : Option MediaFile) (upload : Except String String) :
    Except HTTPError (Option String × Option String) :=
  if question_type = "text" then
    if question_text = none ∨ question_text = some "" then
      .error { code := 400, detail := "question_text is required for text questions" }
    else .ok (none, none)
  else if question_type = "audio" then
    match media with
    | none => .error { code := 400, detail := "Audio file is required for audio questions" }
    | some m =>
      if ¬ startswith m.content_type "audio/" then
        .error { code := 400, detail := "File must be an audio file" }
      else
        match upload with
        | .error e => .error { code := 500, detail := "Failed to upload audio: " ++ e }
        | .ok url => .ok (some url, none)
  else
    match media with
    | none => .error { code := 400, detail := "Video file is required for video questions" }
    | some m =>
      if ¬ startswith m.content_type "video/" then
        .error { code := 400, detail := "File must be a video file" }
      else
        match upload with
        | .error e => .error { code := 500, detail := "Failed to upload video: " ++ e }
        | .ok url => .ok (none, some url)

/-- The booking mutation block of submit_question (bookings.py lines 192
to 198). -/
def questionUpdate (booking : Booking) (question_type : String)
    (question_text : Option String) (urls : Option String × Option String)
    (now : Int) : Booking :=
  { booking with
    question_type := some question_type
    question_text := question_text
    question_audio_url := urls.1
    question_video_url := urls.2
    question_submitted_at := some { instant := now, aware := false }
    status := BookingStatus.awaiting_response }

/-- POST /bookings/booking_id/question (bookings.py, submit_question). -/
def submit_question (db : DB) (booking_id current_user : Nat)
    (question_type : String) (question_text : Option String)
    (media : Option MediaFile) (upload : Except String String) (now : Int) :
    Except HTTPError DB :=
  if ¬ (question_type = "text" ∨ question_type = "audio" ∨ question_type = "video") then
    .error { code := 400, detail := "question_type must be text, audio, or video" }
  else
    match findBookingFan db booking_id current_user with
    | none => .error { code := 404, detail := "Booking not found" }
    | some booking =>
      if booking.status ≠ BookingStatus.pending_question then
        .error { code := 400, detail := "Question already submitted" }
      else
        (questionPayload question_type question_text media upload).map (fun urls =>
          { db with bookings :=
              updateBooking db.bookings (questionUpdate booking question_type question_text urls now) })

/-- The per-type payload validation and media upload of submit_follow_up
(follow_ups.py lines 80 to 143); same shape as questionPayload but with
the message wording of that handler. -/
def followUpPayload (message_type : String) (text_content : Option String)
    (media : Option MediaFile) (upload : Except String String) :
    Except HTTPError (Option String × Option String) :=
  if message_type = "text" then
    if text_content = none ∨ text_content = some "" then
      .error { code := 400, detail := "text_content is required for text messages" }
    else .ok (none, none)
  else if message_type = "audio" then
    match media with
    | none => .error { code := 400, detail := "Audio file is required for audio messages" }
    | some m =>
      if ¬ startswith m.content_type "audio/" then
        .error { code := 400, detail := "File must be an audio file" }
      else
        match upload with
        | .error e => .error { code := 500, detail := "Failed to upload audio: " ++ e }
        | .ok url => .ok (some url, none)
  else
    match media with
    | none => .error { code := 400, detail := "Video file is required for video messages" }
    | some m =>
      if ¬ startswith m.content_type "video/" then
        .error { code := 400, detail := "File must be a video file" }
      else
        match upload with
        | .error e => .error { code := 500, detail := "Failed to upload video: " ++ e }
        | .ok url => .ok (none, some url)

/-- The FollowUpMessage row created by submit_follow_up (follow_ups.py
lines 145 to 153): sender_type is the literal fan string. -/
def followUpRecord (booking_id : Nat) (message_type : String)
    (text_content : Option String) (urls : Option String × Option String) :
    FollowUpMessage :=
  { booking_id := booking_id
    sender_type := "fan"
    message_type := message_type
    text_content := text_content
    audio_url := urls.1
    video_url := urls.2 }

/-- The booking mutation block of submit_follow_up (follow_ups.py lines
157 to 159). -/
def followUpUpdate (booking : Booking) : Booking :=
  { booking with
    follow_ups_remaining := booking.follow_ups_remaining - 1
    status := BookingStatus.awaiting_response }

/-- POST /bookings/booking_id/follow-up (follow_ups.py, submit_follow_up).
The quota check precedes the status check, as in the source. -/
def submit_follow_up (db : DB) (booking_id current_user : Nat)
    (message_type : String) (text_content : Option String)
    (media : Option MediaFile) (upload : Except String String) :
    Except HTTPError DB :=
  if ¬ (message_type = "text" ∨ message_type = "audio" ∨ message_type = "video") then
    .error { code := 400, detail := "message_type must be text, audio, or video" }
  else
    match findBookingFan db booking_id current_user with
    | none => .error { code := 404, detail := "Booking not found" }
    | some booking =>
      if booking.follow_ups_remaining ≤ 0 then
        .error { code := 400, detail := "No follow-ups remaining for this booking" }
      else if booking.status ≠ BookingStatus.completed then
        .error { code := 400, detail := "Can only submit follow-ups after creator responds" }
      else
        (followUpPayload message_type text_content media upload).map (fun urls =>
          { db with
            bookings := updateBooking db.bookings (followUpUpdate booking)
            follow_ups := db.follow_ups ++ [followUpRecord booking_id message_type text_content urls] })

/-- The booking mutation block of submit_creator_response (bookings.py
lines 512 to 526), including the timezone-normalized sla evaluation. -/
def applyResponse (booking : Booking) (response_type : String) (url : String)
    (now : Int) : Booking :=
  let base := { booking with
    response_media_url := some url
    response_type := some response_type
    response_submitted_at := some { instant := now, aware := false }
    status := BookingStatus.completed }
  match booking.expected_response_by with
  | none => base
  | some expected =>
    let now_utc : Timestamp := { instant := now, aware := true }
    let expected_by := replaceTzUtc expected
    { base with sla_met := some (decide (now_utc.instant ≤ expected_by.instant)) }

/-- POST /bookings/booking_id/response (bookings.py,
submit_creator_response). -/
def submit_creator_response (db : DB) (booking_id current_user : Nat)
    (response_type : String) (media : MediaFile) (upload : Except String String)
    (now : Int) : Except HTTPError DB :=
  if ¬ (response_type = "voice" ∨ response_type = "video") then
    .error { code := 400, detail := "response_type must be voice or video" }
  else
    match findProfileUser db current_user with
    | none => .error { code := 404, detail := "Creator profile not found" }
    | some creator_profile =>
      match findBookingCreator db booking_id creator_profile.id with
      | none => .error { code := 404, detail := "Booking not found" }
      | some booking =>
        if booking.status ≠ BookingStatus.awaiting_response then
          .error { code := 400, detail := "Cannot respond to booking with status: " ++ booking.status.value }
        else if response_type = "voice" ∧ ¬ startswith media.content_type "audio/" then
          .error { code := 400, detail := "File must be an audio file for voice responses" }
        else if response_type = "video" ∧ ¬ startswith media.content_type "video/" then
          .error { code := 400, detail := "File must be a video file for video responses" }
        else
          match upload with
          | .error e => .error { code := 500, detail := "Failed to upload response media: " ++ e }
          | .ok url =>
            .ok { db with bookings :=
              updateBooking db.bookings (applyResponse booking response_type url now) }

/-- The booking mutation block of submit_rating (bookings.py lines 321
to 323): the rating fields are assigned with no check that they were
previously unset. -/
def ratingUpdate (booking : Booking) (rating : Nat) (review : Option String) : Booking :=
  { booking with fan_rating := some rating, fan_review := review }

/-- PUT /bookings/booking_id/rating (bookings.py, submit_rating).  The
rating argument has already passed the RatingSubmit schema bounds. -/
def submit_rating (db : DB) (booking_id current_user : Nat)
    (rating : Nat) (review : Option String) : Except HTTPError DB :=
  match findBookingFan db booking_id current_user with
  | none => .error { code := 404, detail := "Booking not found" }
  | some booking =>
    if booking.status ≠ BookingStatus.completed then
      .error { code := 400, detail := "Can only rate completed consultations" }
    else
      .ok { db with bookings := updateBooking db.bookings (ratingUpdate booking rating review) }

/-- The Message row created by send_message (messages.py lines 61 to
71): a pending fan message addressed to the creator user reached through
the tier.club.creator relationship chain. -/
def messageRecord (subscription : Subscription) (current_user : Nat)
    (message_data : MessageCreate) : Message :=
  { subscription_id := subscription.id
    sender_id := current_user
    receiver_id := subscription.creator_user_id
    message_type := message_data.message_type
    content := message_data.content
    media_url := message_data.media_url
    media_duration_secs := message_data.media_duration_secs
    status := MessageStatus.pending
    is_fan_message := true
    replied_at := none }

/-- The counter increment of send_message (messages.py line 76). -/
def counterUpdate (subscription : Subscription) : Subscription :=
  { subscription with messages_sent_this_period := subscription.messages_sent_this_period + 1 }

/-- POST /messages/send (messages.py, send_message).  The websocket push
after the commit is fire-and-forget and does not touch the store, so it
is not part of the state transition. -/
def send_message (db : DB) (current_user : Nat) (message_data : MessageCreate) :
    Except HTTPError DB :=
  match findSubscriptionFan db message_data.subscription_id current_user with
  | none => .error { code := 404, detail := "Subscription not found" }
  | some subscription =>
    if subscription.status ≠ SubscriptionStatus.active then
      .error { code := 400, detail := "Subscription is not active" }
    else
      if subscription.messages_sent_this_period ≥ subscription.tier.max_messages_per_month then
        .error { code := 429, detail :=
          "Monthly message limit reached (" ++ toString subscription.tier.max_messages_per_month ++ " messages)" }
      else
        .ok { db with
          messages := db.messages ++ [messageRecord subscription current_user message_data]
          subscriptions := updateSubscription db.subscriptions (counterUpdate subscription) }

/-- The booking mutation block of verify_payment (payments.py lines 110
to 124): payment marked paid and the gateway references recorded. -/
def paidUpdate (booking : Booking) (payment_id signature : String) : Booking :=
  { booking with
    payment_status := some "PAID"
    razorpay_payment_id := some payment_id
    razorpay_signature := some signature }

/-- POST /payments/verify (payments.py, verify_payment).  gateway_valid
is the boolean outcome of payment_service.verify_payment, the delegated
signature check. -/
def verify_payment (db : DB) (order_id payment_id signature : String)
    (gateway_valid : Bool) : Except HTTPError DB :=
  if ¬ gateway_valid then
    .error { code := 400, detail := "Invalid payment signature" }
  else
    match findBookingOrder db order_id with
    | none => .error { code := 404, detail := "Booking not found for this order" }
    | some booking =>
      .ok { db with bookings := updateBooking db.bookings (paidUpdate booking payment_id signature) }

/-- One request against the verified handlers, with all external inputs
(ids, clock readings, oracle outcomes) as data. -/
inductive Op where
  | create (new_id : Nat) (now : Int) (u : Nat) (data : BookingCreate)
  | question (bid u : Nat) (t : String) (txt : Option String)
      (m : Option MediaFile) (up : Except String String) (now : Int)
  | response (bid u : Nat) (t : String) (m : MediaFile)
      (up : Except String String) (now : Int)
  | followUp (bid u : Nat) (t : String) (txt : Option String)
      (m : Option MediaFile) (up : Except String String)
  | rating (bid u : Nat) (r : Nat) (rev : Option String)
  | message (u : Nat) (data : MessageCreate)
  | payVerify (order payment signature : String) (ok : Bool)

/-- Dispatch one request to its handler. -/
def applyOp (db : DB) : Op → Except HTTPError DB
  | .create new_id now u data => create_booking db new_id now u data
  | .question bid u t txt m up now => submit_question db bid u t txt m up now
  | .response bid u t m up now => submit_creator_response db bid u t m up now
  | .followUp bid u t txt m up => submit_follow_up db bid u t txt m up
  | .rating bid u r rev => submit_rating db bid u r rev
  | .message u data => send_message db u data
  | .payVerify order payment signature ok => verify_payment db order payment signature ok

/-- A raised HTTPException aborts the transaction: the store is unchanged
on error, and is the committed snapshot on success. -/
def step (db : DB) (op : Op) : DB :=
  match applyOp db op with
  | .ok db' => db'
  | .error _ => db

/-- Run a sequence of requests. -/
def run (db : DB) (ops : List Op) : DB := ops.foldl step db

/-- The property that the requested message type is one of the three the
handlers accept. -/
def validMediaType (t : String) : Prop := t = "text" ∨ t = "audio" ∨ t = "video"

/-- Look up a booking by id alone and project its sla_met column. -/
def bookingSlaMet (db : DB) (booking_id : Nat) : Option (Option Bool) :=
  (db.bookings.find? (fun b => b.id == booking_id)).map (fun b => b.sla_met)

/-- Look up a booking by id alone and project its fan_rating column. -/
def bookingFanRating (db : DB) (booking_id : Nat) : Option (Option Nat) :=
  (db.bookings.find? (fun b => b.id == booking_id)).map (fun b => b.fan_rating)

/-- Look up a booking by id alone and project its status column. -/
def bookingStatusOf (db : DB) (booking_id : Nat) : Option BookingStatus :=
  (db.bookings.find? (fun b => b.id == booking_id)).map (fun b => b.status)

/-- Look up a booking by id alone and project the question columns
(type, text, audio url, video url). -/
def bookingQuestion (db : DB) (booking_id : Nat) :
    Option (Option String × Option String × Option String × Option String) :=
  (db.bookings.find? (fun b => b.id == booking_id)).map
    (fun b => (b.question_type, b.question_text, b.question_audio_url, b.question_video_url))

/-! Concrete scenario used by witnesses and counterexamples: fan user 1,
creator user 2 owning creator profile 10, one booking (id 1) created at
instant 0 for amount 500, so expected_response_by is instant 172800
(48 hours) naive. -/

/-- An audio upload as the handlers see it. -/
def audioFile : MediaFile := { content_type := "audio/mpeg" }

/-- The create request of the concrete scenario. -/
def sampleCreate : BookingCreate :=
  { service_id := none
    creator_id := 10
    service_title := "Consult"
    service_subtitle := none
    amount_paid := 500 }

/-- Initial store of the concrete scenario. -/
def db0 : DB :=
  { bookings := []
    follow_ups := []
    profiles := [{ id := 10, user_id := 2 }]
    subscriptions := []
    messages := [] }

/-- Booking creation at instant 0 by fan 1. -/
def opCreate : Op := .create 1 0 1 sampleCreate

/-- Text question by fan 1 one hour in. -/
def opQuestionText : Op := .question 1 1 "text" (some "When is it?") none (.ok "") 3600

/-- Voice response by creator user 2 at 47 hours. -/
def opResponse47 : Op := .response 1 2 "voice" audioFile (.ok "resp-url-1") (47 * 3600)

/-- Text follow-up by fan 1. -/
def opFollowUp : Op := .followUp 1 1 "text" (some "One more thing") none (.ok "")

/-- Voice response by creator user 2 at 49 hours, after the follow-up
reopened the booking. -/
def opResponse49 : Op := .response 1 2 "voice" audioFile (.ok "resp-url-2") (49 * 3600)

/-- Store after creation. -/
def db1 : DB := run db0 [opCreate]

/-- Store after creation and question. -/
def db2 : DB := run db0 [opCreate, opQuestionText]

/-- Store after the first response: booking completed, sla met. -/
def db3 : DB := run db0 [opCreate, opQuestionText, opResponse47]

/-- Store after the follow-up: booking reopened, budget exhausted. -/
def db4 : DB := run db0 [opCreate, opQuestionText, opResponse47, opFollowUp]

/-- Store after the second response at 49 hours. -/
def db5 : DB := run db0 [opCreate, opQuestionText, opResponse47, opFollowUp, opResponse49]

/-- Audio question that also carries inline text, submitted by fan 1. -/
def opQuestionAudio : Op :=
  .question 1 1 "audio" (some "extra context") (some audioFile) (.ok "q-audio-url") 3600

/-- Store after the audio question with inline text. -/
def dbQA : DB := run db0 [opCreate, opQuestionAudio]

/-- First rating request by fan 1. -/
def opRate5 : Op := .rating 1 1 5 (some "great")

/-- Second rating request by fan 1 on the same booking. -/
def opRate2 : Op := .rating 1 1 2 none

/-- Store after the completed consultation was rated once. -/
def dbR1 : DB := run db0 [opCreate, opQuestionText, opResponse47, opRate5]

/-- Store after the completed consultation was rated twice. -/
def dbR2 : DB := run db0 [opCreate, opQuestionText, opResponse47, opRate5, opRate2]

/-- A tier allowing five messages per month. -/
def tier5 : SubscriptionTier := { max_messages_per_month := 5 }

/-- An active subscription of fan 1 with four messages sent. -/
def subAt4 : Subscription :=
  { id := 7
    fan_id := 1
    status := SubscriptionStatus.active
    messages_sent_this_period := 4
    tier := tier5
    creator_user_id := 2 }

/-- The same subscription sitting exactly at the limit. -/
def subAt5 : Subscription := { subAt4 with messages_sent_this_period := 5 }

/-- Store holding the one-below-limit subscription. -/
def dbSub4 : DB := { db0 with subscriptions := [subAt4] }

/-- Store holding the at-limit subscription. -/
def dbSub5 : DB := { db0 with subscriptions := [subAt5] }

/-- A text message request against subscription 7. -/
def sampleMessage : MessageCreate :=
  { subscription_id := 7
    message_type := "text"
    content := some "hello"
    media_url := none
    media_duration_secs := none }

/-- A booking with a pending payment order attached. -/
def bookingOrder : Booking :=
  { createRecord 3 0 1 sampleCreate with
    razorpay_order_id := some "order-1"
    payment_status := some "PENDING" }

/-- Store holding the booking with the pending order. -/
def dbPay : DB := { db0 with bookings := [bookingOrder] }

/-- The HTTP status code of a handler outcome, none on success. -/
def errCode (r : Except HTTPError DB) : Option Nat :=
  match r with
  | .ok _ => none
  | .error e => some e.code

/-- Whether a handler outcome committed. -/
def isOk (r : Except HTTPError DB) : Bool :=
  match r with
  | .ok _ => true
  | .error _ => false

/-- Invariant of claim C1: no booking ever holds a negative follow-up
budget. -/
def BookingsNonneg (db : DB) : Prop :=
  ∀ b ∈ db.bookings, 0 ≤ b.follow_ups_remaining

/-- Invariant of claim C10: every stored follow-up message is tagged
with the fan role. -/
def AllFollowUpsFan (db : DB) : Prop :=
  ∀ m ∈ db.follow_ups, m.sender_type = "fan"

/-- Invariant of claim C3: no subscription counter exceeds its tier
limit. -/
def SubsWithinLimit (db : DB) : Prop :=
  ∀ s ∈ db.subscriptions, s.messages_sent_this_period ≤ s.tier.max_messages_per_month

/-! Basic facts about the embedding, shared by the claim theorems. -/

theorem step_of_error {db : DB} {op : Op} {e : HTTPError}
    (h : applyOp db op = .error e) : step db op = db := by
  unfold step
  rw [h]

theorem step_of_ok {db db' : DB} {op : Op}
    (h : applyOp db op = .ok db') : step db op = db' := by
  unfold step
  rw [h]

theorem mem_updateBooking {bs : List Booking} {b x : Booking}
    (hx : x ∈ updateBooking bs b) : x = b ∨ x ∈ bs := by
  unfold updateBooking at hx
  rcases List.mem_map.mp hx with ⟨y, hy, hxy⟩
  by_cases hid : (y.id == b.id) = true
  · rw [if_pos hid] at hxy
    exact Or.inl hxy.symm
  · rw [if_neg hid] at hxy
    exact Or.inr (hxy ▸ hy)

theorem mem_updateSubscription {ss : List Subscription} {s x : Subscription}
    (hx : x ∈ updateSubscription ss s) : x = s ∨ x ∈ ss := by
  unfold updateSubscription at hx
  rcases List.mem_map.mp hx with ⟨y, hy, hxy⟩
  by_cases hid : (y.id == s.id) = true
  · rw [if_pos hid] at hxy
    exact Or.inl hxy.symm
  · rw [if_neg hid] at hxy
    exact Or.inr (hxy ▸ hy)

theorem findBookingFan_spec {db : DB} {bid u : Nat} {b : Booking}
    (h : findBookingFan db bid u = some b) :
    b ∈ db.bookings ∧ b.id = bid ∧ b.fan_id = u := by
  unfold findBookingFan at h
  have hp := List.find?_some h
  simp only [Bool.and_eq_true, beq_iff_eq] at hp
  exact ⟨List.mem_of_find?_eq_some h, hp.1, hp.2⟩

theorem findBookingCreator_spec {db : DB} {bid c : Nat} {b : Booking}
    (h : findBookingCreator db bid c = some b) :
    b ∈ db.bookings ∧ b.id = bid ∧ b.creator_id = c := by
  unfold findBookingCreator at h
  have hp := List.find?_some h
  simp only [Bool.and_eq_true, beq_iff_eq] at hp
  exact ⟨List.mem_of_find?_eq_some h, hp.1, hp.2⟩

theorem findSubscriptionFan_spec {db : DB} {sid u : Nat} {s : Subscription}
    (h : findSubscriptionFan db sid u = some s) :
    s ∈ db.subscriptions ∧ s.id = sid ∧ s.fan_id = u := by
  unfold findSubscriptionFan at h
  have hp := List.find?_some h
  simp only [Bool.and_eq_true, beq_iff_eq] at hp
  exact ⟨List.mem_of_find?_eq_some h, hp.1, hp.2⟩

theorem findBookingOrder_spec {db : DB} {o : String} {b : Booking}
    (h : findBookingOrder db o = some b) :
    b ∈ db.bookings ∧ b.razorpay_order_id = some o := by
  unfold findBookingOrder at h
  have hp := List.find?_some h
  simp only [beq_iff_eq] at hp
  exact ⟨List.mem_of_find?_eq_some h, hp⟩

theorem find?_updateBooking {bs : List Booking} {p : Booking → Bool} {b b' : Booking}
    (h : bs.find? p = some b) (hid : b'.id = b.id) (hp : p b' = true) :
    (updateBooking bs b').find? p = some b' := by
  induction bs with
  | nil => simp at h
  | cons x xs ih =>
    unfold updateBooking at ih ⊢
    simp only [List.map_cons]
    cases hpx : p x with
    | true =>
      rw [List.find?_cons_of_pos _ hpx] at h
      have hxb : x = b := by injection h
      have : (x.id == b'.id) = true := by
        subst hxb
        simp [hid]
      rw [if_pos this]
      exact List.find?_cons_of_pos _ hp
    | false =>
      rw [List.find?_cons_of_neg _ (by simp [hpx])] at h
      by_cases hxid : (x.id == b'.id) = true
      · rw [if_pos hxid]
        exact List.find?_cons_of_pos _ hp
      · rw [if_neg hxid]
        rw [List.find?_cons_of_neg _ (by simp [hpx])]
        exact ih h

/-! Inversion facts: what a committed (ok) outcome of each handler says
about the store it started from and the store it produced. -/

theorem create_booking_eq (db : DB) (new_id : Nat) (now : Int) (u : Nat)
    (d : BookingCreate) :
    create_booking db new_id now u d =
      .ok { db with bookings := db.bookings ++ [createRecord new_id now u d] } := rfl

theorem questionPayload_ok {t : String} {txt : Option String} {m : Option MediaFile}
    {up : Except String String} {urls : Option String × Option String}
    (h : questionPayload t txt m up = .ok urls) :
    (t = "text" ∧ urls = (none, none) ∧ txt ≠ none ∧ txt ≠ some "") ∨
    (t = "audio" ∧ ∃ url, urls = (some url, none)) ∨
    (t ≠ "text" ∧ t ≠ "audio" ∧ ∃ url, urls = (none, some url)) := by
  unfold questionPayload at h
  split at h
  · rename_i ht
    split at h
    · simp at h
    · rename_i hne
      push_neg at hne
      simp only [Except.ok.injEq] at h
      exact Or.inl ⟨ht, h.symm, hne.1, hne.2⟩
  · rename_i ht
    split at h
    · rename_i ha
      split at h
      · simp at h
      · split at h
        · simp at h
        · split at h
          · simp at h
          · rename_i url
            simp only [Except.ok.injEq] at h
            exact Or.inr (Or.inl ⟨ha, url, h.symm⟩)
    · rename_i ha
      split at h
      · simp at h
      · split at h
        · simp at h
        · split at h
          · simp at h
          · rename_i url
            simp only [Except.ok.injEq] at h
            exact Or.inr (Or.inr ⟨ht, ha, url, h.symm⟩)

theorem submit_question_ok {db : DB} {bid u : Nat} {t : String} {txt : Option String}
    {m : Option MediaFile} {up : Except String String} {now : Int} {db' : DB}
    (h : submit_question db bid u t txt m up now = .ok db') :
    ∃ b urls, findBookingFan db bid u = some b ∧
      validMediaType t ∧
      b.status = BookingStatus.pending_question ∧
      questionPayload t txt m up = .ok urls ∧
      db' = { db with bookings := updateBooking db.bookings (questionUpdate b t txt urls now) } := by
  unfold submit_question at h
  split at h
  · simp at h
  · rename_i hv
    split at h
    · simp at h
    · rename_i b hfind
      split at h
      · simp at h
      · rename_i hstat
        cases hp : questionPayload t txt m up with
        | error e =>
          rw [hp] at h
          simp [Except.map] at h
        | ok urls =>
          rw [hp] at h
          simp only [Except.map, Except.ok.injEq] at h
          exact ⟨b, urls, hfind, not_not.mp hv, not_not.mp hstat, rfl, h.symm⟩

theorem submit_follow_up_ok {db : DB} {bid u : Nat} {t : String} {txt : Option String}
    {m : Option MediaFile} {up : Except String String} {db' : DB}
    (h : submit_follow_up db bid u t txt m up = .ok db') :
    ∃ b urls, findBookingFan db bid u = some b ∧
      0 < b.follow_ups_remaining ∧
      b.status = BookingStatus.completed ∧
      followUpPayload t txt m up = .ok urls ∧
      db' = { db with
        bookings := updateBooking db.bookings (followUpUpdate b)
        follow_ups := db.follow_ups ++ [followUpRecord bid t txt urls] } := by
  unfold submit_follow_up at h
  split at h
  · simp at h
  · split at h
    · simp at h
    · rename_i b hfind
      split at h
      · simp at h
      · rename_i hrem
        split at h
        · simp at h
        · rename_i hstat
          cases hp : followUpPayload t txt m up with
          | error e =>
            rw [hp] at h
            simp [Except.map] at h
          | ok urls =>
            rw [hp] at h
            simp only [Except.map, Except.ok.injEq] at h
            exact ⟨b, urls, hfind, by omega, not_not.mp hstat, rfl, h.symm⟩

theorem submit_creator_response_ok {db : DB} {bid u : Nat} {t : String} {m : MediaFile}
    {up : Except String String} {now : Int} {db' : DB}
    (h : submit_creator_response db bid u t m up now = .ok db') :
    ∃ p b url, findProfileUser db u = some p ∧
      findBookingCreator db bid p.id = some b ∧
      b.status = BookingStatus.awaiting_response ∧
      up = .ok url ∧
      db' = { db with bookings := updateBooking db.bookings (applyResponse b t url now) } := by
  unfold submit_creator_response at h
  split at h
  · simp at h
  · split at h
    · simp at h
    · rename_i p hprof
      split at h
      · simp at h
      · rename_i b hfind
        split at h
        · simp at h
        · rename_i hstat
          split at h
          · simp at h
          · split at h
            · simp at h
            · split at h
              · simp at h
              · rename_i url
                simp only [Except.ok.injEq] at h
                exact ⟨p, b, url, hprof, hfind, not_not.mp hstat, rfl, h.symm⟩

theorem submit_rating_ok {db : DB} {bid u r : Nat} {rev : Option String} {db' : DB}
    (h : submit_rating db bid u r rev = .ok db') :
    ∃ b, findBookingFan db bid u = some b ∧
      b.status = BookingStatus.completed ∧
      db' = { db with bookings := updateBooking db.bookings (ratingUpdate b r rev) } := by
  unfold submit_rating at h
  split at h
  · simp at h
  · rename_i b hfind
    split at h
    · simp at h
    · rename_i hstat
      simp only [Except.ok.injEq] at h
      exact ⟨b, hfind, not_not.mp hstat, h.symm⟩

theorem send_message_ok {db : DB} {u : Nat} {d : MessageCreate} {db' : DB}
    (h : send_message db u d = .ok db') :
    ∃ s, findSubscriptionFan db d.subscription_id u = some s ∧
      s.status = SubscriptionStatus.active ∧
      s.messages_sent_this_period < s.tier.max_messages_per_month ∧
      db' = { db with
        messages := db.messages ++ [messageRecord s u d]
        subscriptions := updateSubscription db.subscriptions (counterUpdate s) } := by
  unfold send_message at h
  split at h
  · simp at h
  · rename_i s hfind
    split at h
    · simp at h
    · rename_i hstat
      split at h
      · simp at h
      · rename_i hlim
        simp only [Except.ok.injEq] at h
        exact ⟨s, hfind, not_not.mp hstat, by omega, h.symm⟩

theorem verify_payment_ok {db : DB} {o pid sig : String} {g : Bool} {db' : DB}
    (h : verify_payment db o pid sig g = .ok db') :
    g = true ∧ ∃ b, findBookingOrder db o = some b ∧
      db' = { db with bookings := updateBooking db.bookings (paidUpdate b pid sig) } := by
  unfold verify_payment at h
  split at h
  · simp at h
  · rename_i hg
    split at h
    · simp at h
    · rename_i b hfind
      simp only [Except.ok.injEq] at h
      exact ⟨by simpa using hg, b, hfind, h.symm⟩

/-! Projections of the booking mutation blocks. -/

theorem applyResponse_follow_ups (b : Booking) (t url : String) (now : Int) :
    (applyResponse b t url now).follow_ups_remaining = b.follow_ups_remaining := by
  unfold applyResponse
  cases b.expected_response_by <;> rfl

theorem applyResponse_status (b : Booking) (t url : String) (now : Int) :
    (applyResponse b t url now).status = BookingStatus.completed := by
  unfold applyResponse
  cases b.expected_response_by <;> rfl

theorem applyResponse_fields (b : Booking) (t url : String) (now : Int) :
    (applyResponse b t url now).response_media_url = some url ∧
    (applyResponse b t url now).response_type = some t ∧
    (applyResponse b t url now).response_submitted_at =
      some { instant := now, aware := false } := by
  unfold applyResponse
  cases b.expected_response_by <;> exact ⟨rfl, rfl, rfl⟩

theorem applyResponse_sla {b : Booking} {expected : Timestamp} (t url : String)
    (now : Int) (h : b.expected_response_by = some expected) :
    (applyResponse b t url now).sla_met =
      some (decide (now ≤ (replaceTzUtc expected).instant)) := by
  unfold applyResponse
  rw [h]

/-! Preservation of the store invariants by every request. -/

theorem step_preserves_nonneg {db : DB} (op : Op) (h : BookingsNonneg db) :
    BookingsNonneg (step db op) := by
  cases hap : applyOp db op with
  | error e => rw [step_of_error hap]; exact h
  | ok db' =>
    rw [step_of_ok hap]
    cases op with
    | create new_id now u d =>
      simp only [applyOp, create_booking, Except.ok.injEq] at hap
      intro b hb
      rw [← hap] at hb
      simp only [List.mem_append, List.mem_singleton] at hb
      rcases hb with hb | rfl
      · exact h b hb
      · unfold createRecord
        norm_num
    | question bid u t txt m up now =>
      simp only [applyOp] at hap
      obtain ⟨b, urls, hfind, _, _, _, rfl⟩ := submit_question_ok hap
      intro x hx
      rcases mem_updateBooking hx with rfl | hx
      · simpa [questionUpdate] using h b (findBookingFan_spec hfind).1
      · exact h x hx
    | response bid u t m up now =>
      simp only [applyOp] at hap
      obtain ⟨p, b, url, _, hfind, _, _, rfl⟩ := submit_creator_response_ok hap
      intro x hx
      rcases mem_updateBooking hx with rfl | hx
      · rw [applyResponse_follow_ups]
        exact h b (findBookingCreator_spec hfind).1
      · exact h x hx
    | followUp bid u t txt m up =>
      simp only [applyOp] at hap
      obtain ⟨b, urls, hfind, hrem, _, _, rfl⟩ := submit_follow_up_ok hap
      intro x hx
      rcases mem_updateBooking hx with rfl | hx
      · simp only [followUpUpdate]
        omega
      · exact h x hx
    | rating bid u r rev =>
      simp only [applyOp] at hap
      obtain ⟨b, hfind, _, rfl⟩ := submit_rating_ok hap
      intro x hx
      rcases mem_updateBooking hx with rfl | hx
      · simpa [ratingUpdate] using h b (findBookingFan_spec hfind).1
      · exact h x hx
    | message u d =>
      simp only [applyOp] at hap
      obtain ⟨s, _, _, _, rfl⟩ := send_message_ok hap
      exact h
    | payVerify o pid sig g =>
      simp only [applyOp] at hap
      obtain ⟨_, b, hfind, rfl⟩ := verify_payment_ok hap
      intro x hx
      rcases mem_updateBooking hx with rfl | hx
      · simpa [paidUpdate] using h b (findBookingOrder_spec hfind).1
      · exact h x hx

theorem run_preserves_nonneg {db : DB} (ops : List Op) (h : BookingsNonneg db) :
    BookingsNonneg (run db ops) := by
  induction ops generalizing db with
  | nil => exact h
  | cons op ops ih => exact ih (step_preserves_nonneg op h)

theorem step_preserves_fan {db : DB} (op : Op) (h : AllFollowUpsFan db) :
    AllFollowUpsFan (step db op) := by
  cases hap : applyOp db op with
  | error e => rw [step_of_error hap]; exact h
  | ok db' =>
    rw [step_of_ok hap]
    cases op with
    | create new_id now u d =>
      simp only [applyOp, create_booking, Except.ok.injEq] at hap
      rw [← hap]
      exact h
    | question bid u t txt m up now =>
      simp only [applyOp] at hap
      obtain ⟨b, urls, _, _, _, _, rfl⟩ := submit_question_ok hap
      exact h
    | response bid u t m up now =>
      simp only [applyOp] at hap
      obtain ⟨p, b, url, _, _, _, _, rfl⟩ := submit_creator_response_ok hap
      exact h
    | followUp bid u t txt m up =>
      simp only [applyOp] at hap
      obtain ⟨b, urls, _, _, _, _, rfl⟩ := submit_follow_up_ok hap
      intro x hx
      simp only [List.mem_append, List.mem_singleton] at hx
      rcases hx with hx | rfl
      · exact h x hx
      · rfl
    | rating bid u r rev =>
      simp only [applyOp] at hap
      obtain ⟨b, _, _, rfl⟩ := submit_rating_ok hap
      exact h
    | message u d =>
      simp only [applyOp] at hap
      obtain ⟨s, _, _, _, rfl⟩ := send_message_ok hap
      exact h
    | payVerify o pid sig g =>
      simp only [applyOp] at hap
      obtain ⟨_, b, _, rfl⟩ := verify_payment_ok hap
      exact h

theorem run_preserves_fan {db : DB} (ops : List Op) (h : AllFollowUpsFan db) :
    AllFollowUpsFan (run db ops) := by
  induction ops generalizing db with
  | nil => exact h
  | cons op ops ih => exact ih (step_preserves_fan op h)

theorem step_preserves_limit {db : DB} (op : Op) (h : SubsWithinLimit db) :
    SubsWithinLimit (step db op) := by
  cases hap : applyOp db op with
  | error e => rw [step_of_error hap]; exact h
  | ok db' =>
    rw [step_of_ok hap]
    cases op with
    | create new_id now u d =>
      simp only [applyOp, create_booking, Except.ok.injEq] at hap
      rw [← hap]
      exact h
    | question bid u t txt m up now =>
      simp only [applyOp] at hap
      obtain ⟨b, urls, _, _, _, _, rfl⟩ := submit_question_ok hap
      exact h
    | response bid u t m up now =>
      simp only [applyOp] at hap
      obtain ⟨p, b, url, _, _, _, _, rfl⟩ := submit_creator_response_ok hap
      exact h
    | followUp bid u t txt m up =>
      simp only [applyOp] at hap
      obtain ⟨b, urls, _, _, _, _, rfl⟩ := submit_follow_up_ok hap
      exact h
    | rating bid u r rev =>
      simp only [applyOp] at hap
      obtain ⟨b, _, _, rfl⟩ := submit_rating_ok hap
      exact h
    | message u d =>
      simp only [applyOp] at hap
      obtain ⟨s, hfind, _, hlt, rfl⟩ := send_message_ok hap
      intro x hx
      rcases mem_updateSubscription hx with rfl | hx
      · simp only [counterUpdate]
        omega
      · exact h x hx
    | payVerify o pid sig g =>
      simp only [applyOp] at hap
      obtain ⟨_, b, _, rfl⟩ := verify_payment_ok hap
      exact h

/-! The claims. -/

/-- Claim C1: submit_follow_up commits only when the booking is
completed with a positive follow-up budget, and then appends exactly one
FollowUpMessage, decrements the budget by one and moves the booking back
to awaiting_response; with the budget at zero it fails with the
quota-exceeded error and changes nothing; and the budget never goes
negative under any sequence of requests. -/
theorem C1_follow_up_budget :
    (∀ db bid u t txt m up db',
        submit_follow_up db bid u t txt m up = .ok db' →
        ∃ b urls, findBookingFan db bid u = some b ∧
          b.status = BookingStatus.completed ∧
          0 < b.follow_ups_remaining ∧
          db'.follow_ups = db.follow_ups ++ [followUpRecord bid t txt urls] ∧
          db'.bookings = updateBooking db.bookings (followUpUpdate b) ∧
          (followUpUpdate b).follow_ups_remaining = b.follow_ups_remaining - 1 ∧
          (followUpUpdate b).status = BookingStatus.awaiting_response) ∧
    (∀ db bid u t txt m up b,
        validMediaType t →
        findBookingFan db bid u = some b →
        b.follow_ups_remaining = 0 →
        submit_follow_up db bid u t txt m up =
          .error { code := 400, detail := "No follow-ups remaining for this booking" } ∧
        step db (Op.followUp bid u t txt m up) = db) ∧
    (∀ db ops, BookingsNonneg db → BookingsNonneg (run db ops)) := by
  refine ⟨?_, ?_, ?_⟩
  · intro db bid u t txt m up db' h
    obtain ⟨b, urls, hfind, hrem, hstat, hpay, rfl⟩ := submit_follow_up_ok h
    exact ⟨b, urls, hfind, hstat, hrem, rfl, rfl, rfl, rfl⟩
  · intro db bid u t txt m up b hv hfind hrem
    unfold validMediaType at hv
    have herr : submit_follow_up db bid u t txt m up =
        .error { code := 400, detail := "No follow-ups remaining for this booking" } := by
      simp [submit_follow_up, hfind, hv, hrem]
    exact ⟨herr, step_of_error herr⟩
  · intro db ops h
    exact run_preserves_nonneg ops h

/-- Witness for C1: with the scenario budget already spent (store db4),
a further follow-up is rejected with the quota error and the store is
unchanged. -/
theorem C1_follow_up_budget_witness :
    (findBookingFan db4 1 1).isSome = true ∧
    submit_follow_up db4 1 1 "text" (some "again") none (.ok "") =
      .error { code := 400, detail := "No follow-ups remaining for this booking" } ∧
    step db4 (Op.followUp 1 1 "text" (some "again") none (.ok "")) = db4 :=
  ⟨rfl, C1_follow_up_budget.2.1 db4 1 1 "text" (some "again") none (.ok "") _
    (Or.inl rfl) rfl rfl⟩

/-- Claim C10: every FollowUpMessage the handler creates carries
sender_type fan; a committed submit_follow_up implies the caller is the
booking fan; when no booking matches the caller as fan the request is
rejected as not-found; and under any sequence of requests every stored
follow-up message stays tagged fan. -/
theorem C10_follow_up_sender_fan :
    (∀ db bid u t txt m up db',
        submit_follow_up db bid u t txt m up = .ok db' →
        ∃ b urls, findBookingFan db bid u = some b ∧ b.fan_id = u ∧
          db'.follow_ups = db.follow_ups ++ [followUpRecord bid t txt urls] ∧
          (followUpRecord bid t txt urls).sender_type = "fan") ∧
    (∀ db bid u t txt m up, validMediaType t →
        findBookingFan db bid u = none →
        submit_follow_up db bid u t txt m up =
          .error { code := 404, detail := "Booking not found" }) ∧
    (∀ db ops, AllFollowUpsFan db → AllFollowUpsFan (run db ops)) := by
  refine ⟨?_, ?_, ?_⟩
  · intro db bid u t txt m up db' h
    obtain ⟨b, urls, hfind, _, _, _, rfl⟩ := submit_follow_up_ok h
    exact ⟨b, urls, hfind, (findBookingFan_spec hfind).2.2, rfl, rfl⟩
  · intro db bid u t txt m up hv hfind
    unfold validMediaType at hv
    simp [submit_follow_up, hfind, hv]
  · intro db ops h
    exact run_preserves_fan ops h

/-- Witness for C10: the creator (user 2) calling submit_follow_up on
the scenario booking is rejected as not-found, because the lookup
filters on the fan id. -/
theorem C10_follow_up_sender_fan_witness :
    findBookingFan db4 1 2 = none ∧
    submit_follow_up db4 1 2 "text" (some "reply") none (.ok "") =
      .error { code := 404, detail := "Booking not found" } :=
  ⟨rfl, C10_follow_up_sender_fan.2.1 db4 1 2 "text" (some "reply") none (.ok "")
    (Or.inl rfl) rfl⟩

/-- Claim C2 counterexample: sla_met is not set exactly once.  In the
concrete scenario the first response at 47 hours stores sla_met = true
(store db3); the follow-up then reopens the booking, a second response
at 49 hours commits, and sla_met is recomputed to false (store db5).  So
the same booking has its sla_met flag written twice, with two different
values. -/
theorem C2_sla_set_twice :
    bookingSlaMet db3 1 = some (some true) ∧
    isOk (applyOp db4 opResponse49) = true ∧
    bookingSlaMet db5 1 = some (some false) := ⟨rfl, rfl, rfl⟩

/-- Claim C2 as amended: every committed submit_creator_response records
the response fields, moves the booking to completed and writes sla_met
as the timezone-normalized comparison of now with expected_response_by
(recomputed on each committed response, not only the first); a booking
created at instant now0 carries expected_response_by = now0 + 48 hours
naive, so a response at now0 + 47 hours stores sla_met = true and one at
now0 + 49 hours stores sla_met = false. -/
theorem C2_sla_on_response :
    (∀ db bid u t m up now db',
        submit_creator_response db bid u t m up now = .ok db' →
        ∃ p b url, findProfileUser db u = some p ∧
          findBookingCreator db bid p.id = some b ∧
          b.status = BookingStatus.awaiting_response ∧
          db'.bookings = updateBooking db.bookings (applyResponse b t url now) ∧
          (applyResponse b t url now).status = BookingStatus.completed ∧
          (applyResponse b t url now).response_media_url = some url ∧
          (applyResponse b t url now).response_type = some t ∧
          ∀ expected, b.expected_response_by = some expected →
            (applyResponse b t url now).sla_met =
              some (decide (now ≤ (replaceTzUtc expected).instant))) ∧
    (∀ (b : Booking) (t url : String) (now0 : Int),
        b.expected_response_by = some { instant := now0 + 48 * 3600, aware := false } →
        (applyResponse b t url (now0 + 47 * 3600)).sla_met = some true ∧
        (applyResponse b t url (now0 + 49 * 3600)).sla_met = some false) ∧
    (∀ (new_id : Nat) (now0 : Int) (u : Nat) (d : BookingCreate),
        (createRecord new_id now0 u d).expected_response_by =
          some { instant := now0 + 48 * 3600, aware := false }) := by
  refine ⟨?_, ?_, ?_⟩
  · intro db bid u t m up now db' h
    obtain ⟨p, b, url, hprof, hfind, hstat, hup, rfl⟩ := submit_creator_response_ok h
    refine ⟨p, b, url, hprof, hfind, hstat, rfl, applyResponse_status b t url now,
      (applyResponse_fields b t url now).1, (applyResponse_fields b t url now).2.1, ?_⟩
    intro expected hexp
    exact applyResponse_sla t url now hexp
  · intro b t url now0 hb
    constructor
    · rw [applyResponse_sla t url (now0 + 47 * 3600) hb]
      simp [replaceTzUtc]
    · rw [applyResponse_sla t url (now0 + 49 * 3600) hb]
      simp [replaceTzUtc]
  · intro new_id now0 u d
    rfl

/-- Witness for C2 (amended): the sla rule evaluated on a concrete
freshly created booking, responded to at 47 and at 49 hours. -/
theorem C2_sla_on_response_witness :
    (applyResponse (createRecord 1 0 1 sampleCreate) "voice" "url" (0 + 47 * 3600)).sla_met =
      some true ∧
    (applyResponse (createRecord 1 0 1 sampleCreate) "voice" "url" (0 + 49 * 3600)).sla_met =
      some false :=
  C2_sla_on_response.2.1 (createRecord 1 0 1 sampleCreate) "voice" "url" 0
    (C2_sla_on_response.2.2 1 0 1 sampleCreate)

/-- Claim C3: send_message commits only for an active subscription whose
counter is strictly below the tier limit, appending exactly one Message
and incrementing the counter in the same commit; with the counter at the
limit it fails with the 429 quota error and changes nothing; and the
counter never exceeds the limit across requests. -/
theorem C3_message_quota :
    (∀ db u d db', send_message db u d = .ok db' →
        ∃ s, findSubscriptionFan db d.subscription_id u = some s ∧
          s.status = SubscriptionStatus.active ∧
          s.messages_sent_this_period < s.tier.max_messages_per_month ∧
          db'.messages = db.messages ++ [messageRecord s u d] ∧
          db'.subscriptions = updateSubscription db.subscriptions (counterUpdate s) ∧
          (counterUpdate s).messages_sent_this_period = s.messages_sent_this_period + 1) ∧
    (∀ db u d s, findSubscriptionFan db d.subscription_id u = some s →
        s.status = SubscriptionStatus.active →
        s.messages_sent_this_period = s.tier.max_messages_per_month →
        send_message db u d = .error { code := 429, detail :=
          "Monthly message limit reached (" ++ toString s.tier.max_messages_per_month ++ " messages)" } ∧
        step db (Op.message u d) = db) ∧
    (∀ db op, SubsWithinLimit db → SubsWithinLimit (step db op)) := by
  refine ⟨?_, ?_, ?_⟩
  · intro db u d db' h
    obtain ⟨s, hfind, hstat, hlt, rfl⟩ := send_message_ok h
    exact ⟨s, hfind, hstat, hlt, rfl, rfl, rfl⟩
  · intro db u d s hfind hstat hlim
    have herr : send_message db u d = .error { code := 429, detail :=
        "Monthly message limit reached (" ++ toString s.tier.max_messages_per_month ++ " messages)" } := by
      simp [send_message, hfind, hstat, hlim]
    exact ⟨herr, step_of_error herr⟩
  · intro db op h
    exact step_preserves_limit op h

/-- Witness for C3: the at-limit subscription (five of five used)
rejects a send with 429 and the store is unchanged. -/
theorem C3_message_quota_witness :
    (findSubscriptionFan dbSub5 7 1).isSome = true ∧
    errCode (send_message dbSub5 1 sampleMessage) = some 429 ∧
    step dbSub5 (Op.message 1 sampleMessage) = dbSub5 := by
  have h := C3_message_quota.2.1 dbSub5 1 sampleMessage _ rfl rfl rfl
  refine ⟨rfl, ?_, h.2⟩
  rw [h.1]
  rfl

/-- Claim C4: a failing submit_question leaves the booking untouched.
An audio question with no media fails with the validation error, an
upload failure fails with the 500 storage error, and in both cases (and
for every other error) the committed store is exactly the one before the
call, so the booking keeps status pending_question and no question field
is persisted. -/
theorem C4_question_failure_no_mutation :
    (∀ db bid u txt up now b,
        findBookingFan db bid u = some b →
        b.status = BookingStatus.pending_question →
        submit_question db bid u "audio" txt none up now =
          .error { code := 400, detail := "Audio file is required for audio questions" } ∧
        step db (Op.question bid u "audio" txt none up now) = db) ∧
    (∀ db bid u txt mf msg now b,
        findBookingFan db bid u = some b →
        b.status = BookingStatus.pending_question →
        startswith mf.content_type "audio/" = true →
        submit_question db bid u "audio" txt (some mf) (.error msg) now =
          .error { code := 500, detail := "Failed to upload audio: " ++ msg } ∧
        step db (Op.question bid u "audio" txt (some mf) (.error msg) now) = db) ∧
    (∀ db bid u t txt m up now e,
        submit_question db bid u t txt m up now = .error e →
        step db (Op.question bid u t txt m up now) = db) := by
  refine ⟨?_, ?_, ?_⟩
  · intro db bid u txt up now b hfind hstat
    have herr : submit_question db bid u "audio" txt none up now =
        .error { code := 400, detail := "Audio file is required for audio questions" } := by
      simp [submit_question, questionPayload, hfind, hstat, Except.map]
    exact ⟨herr, step_of_error herr⟩
  · intro db bid u txt mf msg now b hfind hstat hct
    have herr : submit_question db bid u "audio" txt (some mf) (.error msg) now =
        .error { code := 500, detail := "Failed to upload audio: " ++ msg } := by
      simp [submit_question, questionPayload, hfind, hstat, hct, Except.map]
    exact ⟨herr, step_of_error herr⟩
  · intro db bid u t txt m up now e h
    exact step_of_error h

/-- Witness for C4: on the freshly created scenario booking, an audio
question without a media file is rejected with the validation error and
the store is unchanged. -/
theorem C4_question_failure_no_mutation_witness :
    (findBookingFan db1 1 1).isSome = true ∧
    submit_question db1 1 1 "audio" none none (.ok "") 3600 =
      .error { code := 400, detail := "Audio file is required for audio questions" } ∧
    step db1 (Op.question 1 1 "audio" none none (.ok "") 3600) = db1 :=
  ⟨rfl, C4_question_failure_no_mutation.1 db1 1 1 none (.ok "") 3600 _ rfl rfl⟩

/-- Claim C5 counterexample: the rating is not settable only once.  In
the concrete scenario the completed booking is rated 5 (store dbR1); a
second submit_rating with rating 2 also commits instead of failing, and
the stored rating becomes 2, overwriting the first value. -/
theorem C5_rating_set_twice :
    bookingFanRating dbR1 1 = some (some 5) ∧
    isOk (submit_rating dbR1 1 1 2 none) = true ∧
    bookingFanRating dbR2 1 = some (some 2) := ⟨rfl, rfl, rfl⟩

/-- Claim C5 as amended: submit_rating requires only status = completed;
it does not enforce a single write, so a committed call records the
rating, a call on a booking that is not completed fails with the
invalid-state error, and a second call on the same still-completed
booking also commits and overwrites the first rating. -/
theorem C5_rating_overwrite :
    (∀ db bid u r rev db', submit_rating db bid u r rev = .ok db' →
        ∃ b, findBookingFan db bid u = some b ∧
          b.status = BookingStatus.completed ∧
          db'.bookings = updateBooking db.bookings (ratingUpdate b r rev) ∧
          (ratingUpdate b r rev).fan_rating = some r) ∧
    (∀ db bid u r rev b, findBookingFan db bid u = some b →
        b.status ≠ BookingStatus.completed →
        submit_rating db bid u r rev =
          .error { code := 400, detail := "Can only rate completed consultations" }) ∧
    (∀ db bid u r1 rev1 r2 rev2 db',
        submit_rating db bid u r1 rev1 = .ok db' →
        ∃ b', findBookingFan db' bid u = some b' ∧
          b'.fan_rating = some r1 ∧
          submit_rating db' bid u r2 rev2 =
            .ok { db' with bookings := updateBooking db'.bookings (ratingUpdate b' r2 rev2) } ∧
          (ratingUpdate b' r2 rev2).fan_rating = some r2) := by
  refine ⟨?_, ?_, ?_⟩
  · intro db bid u r rev db' h
    obtain ⟨b, hfind, hstat, rfl⟩ := submit_rating_ok h
    exact ⟨b, hfind, hstat, rfl, rfl⟩
  · intro db bid u r rev b hfind hstat
    simp [submit_rating, hfind, hstat]
  · intro db bid u r1 rev1 r2 rev2 db' h
    obtain ⟨b, hfind, hstat, rfl⟩ := submit_rating_ok h
    have hp : (fun x : Booking => x.id == bid && x.fan_id == u) (ratingUpdate b r1 rev1) = true := by
      have := List.find?_some (p := fun x : Booking => x.id == bid && x.fan_id == u)
        (by simpa [findBookingFan] using hfind)
      simpa [ratingUpdate] using this
    have hfind' : findBookingFan
        { db with bookings := updateBooking db.bookings (ratingUpdate b r1 rev1) } bid u =
        some (ratingUpdate b r1 rev1) := by
      unfold findBookingFan at hfind ⊢
      exact find?_updateBooking hfind rfl hp
    refine ⟨ratingUpdate b r1 rev1, hfind', rfl, ?_, rfl⟩
    have hstat' : (ratingUpdate b r1 rev1).status = BookingStatus.completed := hstat
    simp [submit_rating, hfind', hstat']

/-- Witness for C5 (amended): applying the repeat-rating rule to the
concrete first rating commit shows the second call commits and the
stored rating is overwritten. -/
theorem C5_rating_overwrite_witness :
    isOk (submit_rating dbR1 1 1 2 none) = true ∧
    bookingFanRating dbR2 1 = some (some 2) := by
  have h := C5_rating_overwrite.2.2 db3 1 1 5 (some "great") 2 none dbR1 rfl
  obtain ⟨b', hfind, hr1, hok, hr2⟩ := h
  refine ⟨?_, rfl⟩
  rw [show submit_rating dbR1 1 1 2 none = _ from hok]
  rfl

/-- Claim C6 counterexample: an actor who is not the booking fan is not
rejected with Forbidden (403).  User 2 (the creator) calling
submit_question on booking 1, whose fan is user 1, gets 404 Booking not
found, because the lookup filters on the fan id. -/
theorem C6_forbidden_counterexample :
    submit_question db1 1 2 "text" (some "hi") none (.ok "") 0 =
      .error { code := 404, detail := "Booking not found" } ∧
    errCode (submit_question db1 1 2 "text" (some "hi") none (.ok "") 0) ≠ some 403 :=
  ⟨rfl, by decide⟩

/-- Claim C6 as amended: submit_question requires status =
pending_question and that the caller is the booking fan; a wrong status
fails with the invalid-state error (400 Question already submitted),
while a caller who is not the fan of any matching booking fails with 404
Booking not found rather than Forbidden. -/
theorem C6_question_guards :
    (∀ db bid u t txt m up now db',
        submit_question db bid u t txt m up now = .ok db' →
        ∃ b, findBookingFan db bid u = some b ∧ b.fan_id = u ∧
          b.status = BookingStatus.pending_question) ∧
    (∀ db bid u t txt m up now b, validMediaType t →
        findBookingFan db bid u = some b →
        b.status ≠ BookingStatus.pending_question →
        submit_question db bid u t txt m up now =
          .error { code := 400, detail := "Question already submitted" }) ∧
    (∀ db bid u t txt m up now, validMediaType t →
        findBookingFan db bid u = none →
        submit_question db bid u t txt m up now =
          .error { code := 404, detail := "Booking not found" }) := by
  refine ⟨?_, ?_, ?_⟩
  · intro db bid u t txt m up now db' h
    obtain ⟨b, urls, hfind, _, hstat, _, rfl⟩ := submit_question_ok h
    exact ⟨b, hfind, (findBookingFan_spec hfind).2.2, hstat⟩
  · intro db bid u t txt m up now b hv hfind hstat
    unfold validMediaType at hv
    simp [submit_question, hfind, hv, hstat]
  · intro db bid u t txt m up now hv hfind
    unfold validMediaType at hv
    simp [submit_question, hfind, hv]

/-- Witness for C6 (amended): on the scenario booking that has already
moved to awaiting_response (store db2), a second question by the fan is
rejected with the invalid-state error. -/
theorem C6_question_guards_witness :
    (findBookingFan db2 1 1).isSome = true ∧
    submit_question db2 1 1 "text" (some "again") none (.ok "") 7200 =
      .error { code := 400, detail := "Question already submitted" } :=
  ⟨rfl, C6_question_guards.2.1 db2 1 1 "text" (some "again") none (.ok "") 7200 _
    (Or.inl rfl) rfl (by decide)⟩

/-- Claim C7 counterexample: the stored question payload is not limited
to exactly one populated field.  An audio question submitted together
with inline text commits, and the booking then holds both question_text
and question_audio_url. -/
theorem C7_two_fields_populated :
    isOk (applyOp db1 opQuestionAudio) = true ∧
    bookingQuestion dbQA 1 =
      some (some "audio", some "extra context", some "q-audio-url", none) := ⟨rfl, rfl⟩

/-- Claim C7 as amended: after a committed submit_question the booking
carries the declared type tag, question_text holds whatever inline text
was passed (mandatory and non-empty for text questions, optional extra
for audio and video), and of the two media references exactly the one
matching an audio or video tag is populated, both being empty for a text
question. -/
theorem C7_question_payload_shape :
    ∀ db bid u t txt m up now db',
      submit_question db bid u t txt m up now = .ok db' →
      ∃ b urls, findBookingFan db bid u = some b ∧
        db'.bookings = updateBooking db.bookings (questionUpdate b t txt urls now) ∧
        (questionUpdate b t txt urls now).question_type = some t ∧
        (questionUpdate b t txt urls now).question_text = txt ∧
        (questionUpdate b t txt urls now).question_audio_url = urls.1 ∧
        (questionUpdate b t txt urls now).question_video_url = urls.2 ∧
        ((t = "text" ∧ urls = (none, none) ∧ txt ≠ none ∧ txt ≠ some "") ∨
         (t = "audio" ∧ ∃ url, urls = (some url, none)) ∨
         (t = "video" ∧ ∃ url, urls = (none, some url))) := by
  intro db bid u t txt m up now db' h
  obtain ⟨b, urls, hfind, hv, hstat, hpay, rfl⟩ := submit_question_ok h
  refine ⟨b, urls, hfind, rfl, rfl, rfl, rfl, rfl, ?_⟩
  rcases questionPayload_ok hpay with h1 | h2 | h3
  · exact Or.inl h1
  · exact Or.inr (Or.inl h2)
  · unfold validMediaType at hv
    rcases hv with hv | hv | hv
    · exact absurd hv h3.1
    · exact absurd hv h3.2.1
    · exact Or.inr (Or.inr ⟨hv, h3.2.2⟩)

/-- Witness for C7 (amended): the payload rule applied to the committed
audio-with-text question of the concrete scenario. -/
theorem C7_question_payload_shape_witness :
    isOk (applyOp db1 opQuestionAudio) = true ∧
    bookingQuestion dbQA 1 =
      some (some "audio", some "extra context", some "q-audio-url", none) ∧
    (∃ b urls, findBookingFan db1 1 1 = some b ∧
      dbQA.bookings = updateBooking db1.bookings
        (questionUpdate b "audio" (some "extra context") urls 3600) ∧
      (questionUpdate b "audio" (some "extra context") urls 3600).question_type = some "audio" ∧
      (questionUpdate b "audio" (some "extra context") urls 3600).question_text = some "extra context" ∧
      (questionUpdate b "audio" (some "extra context") urls 3600).question_audio_url = urls.1 ∧
      (questionUpdate b "audio" (some "extra context") urls 3600).question_video_url = urls.2 ∧
      (("audio" = "text" ∧ urls = (none, none) ∧ some "extra context" ≠ none ∧
          some "extra context" ≠ some "") ∨
       ("audio" = "audio" ∧ ∃ url, urls = (some url, none)) ∨
       ("audio" = "video" ∧ ∃ url, urls = (none, some url)))) :=
  ⟨rfl, rfl, C7_question_payload_shape db1 1 1 "audio" (some "extra context")
    (some audioFile) (.ok "q-audio-url") 3600 dbQA rfl⟩

/-- Claim C8: verify_payment with a signature the gateway rejects fails
with the invalid-signature error and changes nothing, so payment_status
keeps its prior value; with a verified signature it fails with 404 when
no booking carries the order reference, and otherwise marks the booking
paid and records the payment reference and signature. -/
theorem C8_verify_payment :
    (∀ db o pid sig,
        verify_payment db o pid sig false =
          .error { code := 400, detail := "Invalid payment signature" } ∧
        step db (Op.payVerify o pid sig false) = db) ∧
    (∀ db o pid sig, findBookingOrder db o = none →
        verify_payment db o pid sig true =
          .error { code := 404, detail := "Booking not found for this order" }) ∧
    (∀ db o pid sig b, findBookingOrder db o = some b →
        verify_payment db o pid sig true =
          .ok { db with bookings := updateBooking db.bookings (paidUpdate b pid sig) } ∧
        (paidUpdate b pid sig).payment_status = some "PAID" ∧
        (paidUpdate b pid sig).razorpay_payment_id = some pid ∧
        (paidUpdate b pid sig).razorpay_signature = some sig) := by
  refine ⟨?_, ?_, ?_⟩
  · intro db o pid sig
    exact ⟨rfl, step_of_error rfl⟩
  · intro db o pid sig hfind
    simp [verify_payment, hfind]
  · intro db o pid sig b hfind
    refine ⟨?_, rfl, rfl, rfl⟩
    simp [verify_payment, hfind]

/-- Witness for C8: on the concrete store holding a booking with order
reference order-1, a failed signature check leaves everything unchanged
and a verified one marks that booking paid. -/
theorem C8_verify_payment_witness :
    step dbPay (Op.payVerify "order-1" "pay-9" "sig-bad" false) = dbPay ∧
    (findBookingOrder dbPay "order-1").isSome = true ∧
    verify_payment dbPay "order-1" "pay-9" "sig-ok" true =
      .ok { dbPay with bookings := updateBooking dbPay.bookings (paidUpdate bookingOrder "pay-9" "sig-ok") } :=
  ⟨(C8_verify_payment.1 dbPay "order-1" "pay-9" "sig-bad").2, rfl,
    (C8_verify_payment.2.2 dbPay "order-1" "pay-9" "sig-ok" bookingOrder rfl).1⟩

end OnlyForU
